import Mathlib

/-!
# Ping-pong transceiver session of the Pico LLCC68 example

A shallow embedding of `examples/NonArduino/Pico pingpong rx/main.cpp`.

* The globals `transmissionState`, `transmitFlag`, `operationDone` and the local
  `count` of `main` form the record `Session`.
* Every effect of the program (console output, radio calls, delays, LED, and the
  store to the `volatile` flag) is appended, in program order, to a trace of `Act`.
* What the radio and the SDK answer is an input: `BootReplies` for the start-up
  code, `RadioReplies` for one pass of the `for(;;)` loop.
* `int` is a 32-bit two's complement integer: `count++` is `+ 1` wrapped by
  `wrapInt32`.
* The interrupt callback `setFlag` runs between passes of the loop (`PassInput.irq`); since
  a pass clears the flag before anything else, an interrupt arriving later in the pass is
  the same as one arriving before the next pass.
* `INITIATING_NODE` is a Boolean parameter of `main`; the source has it undefined.

The definitions come first, then the lemmas on one pass and on runs, then the properties
of the session.
-/

namespace PingPong

/-! ## Constants, C library -/

/-- Status codes the program compares against.  They are declared in headers of the
library and of the SDK, so their numeric values are parameters of the model. -/
structure Consts where
  RADIOLIB_ERR_NONE : Int
  RADIOLIB_ERR_INVALID_OUTPUT_POWER : Int
  RADIOLIB_ERR_INVALID_CURRENT_LIMIT : Int
  PICO_OK : Int
  deriving DecidableEq

/-- The values the library headers give to the status codes (used for concrete runs). -/
def radiolib : Consts :=
  { RADIOLIB_ERR_NONE := 0
    RADIOLIB_ERR_INVALID_OUTPUT_POWER := -13
    RADIOLIB_ERR_INVALID_CURRENT_LIMIT := -17
    PICO_OK := 0 }

/-- `#define LED_DELAY_MS 250` -/
def LED_DELAY_MS : Nat := 250

/-- The terminating zero byte of a C string. -/
def NUL : Char := Char.ofNat 0

/-- Two's complement wrap of an integer into the range of a 32-bit `int`. -/
def wrapInt32 (x : Int) : Int := (x + 2147483648) % 4294967296 - 2147483648

/-- Conversion `%d` of `printf`: decimal digits, with a leading minus sign for a negative value. -/
def fmtD : Int → String
  | Int.ofNat n => Nat.repr n
  | Int.negSucc n => "-" ++ Nat.repr (n + 1)

/-- C library `snprintf(buf, size, ...)`, with `text` the complete formatted output:
at most `size - 1` characters of `text` are stored, followed by a zero byte; the bytes
of `buf` behind them keep their value. -/
def snprintf (buf : List Char) (size : Nat) (text : String) : List Char :=
  if size = 0 then buf
  else
    let w := text.data.take (size - 1)
    w ++ NUL :: buf.drop (w.length + 1)

/-- The C string held in a buffer: the characters before the first zero byte. -/
def cstr (buf : List Char) : String := ⟨buf.takeWhile (fun c => c != NUL)⟩

/-! ## Trace of effects -/

/-- The two reception metrics the program prints with `%f`. -/
inductive Metric where
  | RSSI
  | SNR
  deriving DecidableEq

/-- One effect of the program. `printf` carries the complete text written to the console.
`printfBuffer buf` is `printf("%s\n", (char*)buf)` on a byte buffer with the content `buf`:
it writes the bytes before the first zero byte, and when the buffer holds no zero byte the
read runs past its end, so the text written is not fixed here. -/
inductive Act where
  | printf (text : String)
  | printfBuffer (buf : List Char)
  | printfFloat (m : Metric)
  | storeOperationDone (v : Bool)
  | pico_led_init
  | pico_set_led (led_on : Bool)
  | sleep_ms (ms : Nat)
  | delay (ms : Nat)
  | radioBegin
  | setOutputPower (power : Int)
  | setCurrentLimit (limit : Int)
  | setDio1Action
  | startReceive
  | startTransmit (payload : String)
  | readData (len : Nat)
  deriving DecidableEq

/-- Whether an effect is one of the radio's operational commands. -/
def Act.isRadioCommand : Act → Bool
  | Act.startReceive => true
  | Act.startTransmit _ => true
  | Act.readData _ => true
  | _ => false

/-- Whether an effect starts a radio operation (`startTransmit` or `startReceive`). -/
def Act.isStart : Act → Bool
  | Act.startReceive => true
  | Act.startTransmit _ => true
  | _ => false

/-- Whether an effect writes to the console. -/
def Act.isConsole : Act → Bool
  | Act.printf _ => true
  | Act.printfBuffer _ => true
  | Act.printfFloat _ => true
  | _ => false

/-- Whether an effect belongs to the report of a finished operation: the console output,
and the LED writes and sleeps of `led_blink`. -/
def Act.isReport : Act → Bool
  | Act.printf _ => true
  | Act.printfBuffer _ => true
  | Act.printfFloat _ => true
  | Act.pico_set_led _ => true
  | Act.sleep_ms _ => true
  | _ => false

/-- The effects of a trace that do not write to the console, in order. -/
def nonConsole (t : List Act) : List Act := t.filter (fun a => !a.isConsole)

/-- The effects of a trace that are no part of a report, in order. -/
def unreported (t : List Act) : List Act := t.filter (fun a => !a.isReport)

/-- The radio commands of a trace, in order. -/
def radioCommands (t : List Act) : List Act := t.filter Act.isRadioCommand

/-- The payload of a `startTransmit`, nothing for any other effect. -/
def Act.payload : Act → Option String
  | Act.startTransmit p => some p
  | _ => none

/-- The payloads handed to `startTransmit` in a trace, in order. -/
def txPayloads (t : List Act) : List String := t.filterMap Act.payload

/-- Whether an effect is a `readData` call. -/
def Act.isReadData : Act → Bool
  | Act.readData _ => true
  | _ => false

/-- Number of `readData` calls in a trace, one per processed receive-completion. -/
def rxCompletions (t : List Act) : Nat := t.countP Act.isReadData

/-! ## Session state and helpers of the source -/

/-- The variables that live across passes of the main loop. -/
structure Session where
  transmissionState : Int
  transmitFlag : Bool
  operationDone : Bool
  count : Int
  deriving DecidableEq

/-- The interrupt callback: `operationDone = true;`. -/
def setFlag (s : Session) : Session := { s with operationDone := true }

/-- `led_blink(blink_count)`. -/
def led_blink : Nat → List Act
  | 0 => []
  | n + 1 =>
    Act.pico_set_led true :: Act.sleep_ms LED_DELAY_MS ::
      Act.pico_set_led false :: Act.sleep_ms LED_DELAY_MS :: led_blink n

/-- The text `"Hello World! %d"` formatted with `count`. -/
def helloText (count : Int) : String := "Hello World! " ++ fmtD count

/-- `char str_to_transmit[25] = {0}; snprintf(str_to_transmit, sizeof(str_to_transmit),
"Hello World! %d", count);`: the buffer afterwards. -/
def str_to_transmit (count : Int) : List Char :=
  snprintf (List.replicate 25 NUL) 25 (helloText count)

/-! ## One pass of the main loop -/

/-- What the radio answers during one pass of the loop. `byteArr_str` is the content of
the 25-byte receive buffer after `readData`, which need not hold a zero byte. -/
structure RadioReplies where
  startReceive : Int
  readData : Int
  byteArr_str : List Char
  startTransmit : Int
  deriving DecidableEq

/-- The console report of a finished transmission (lines 190-197). -/
def reportTransmit (K : Consts) (transmissionState : Int) : List Act :=
  if transmissionState = K.RADIOLIB_ERR_NONE then
    [Act.printf "transmission finished!\n"]
  else
    [Act.printf ("failed, code " ++ fmtD transmissionState ++ "\n")]

/-- The report of a finished reception (lines 214-234): on success nine console outputs
and `led_blink(5)`, nothing otherwise. -/
def reportReceive (K : Consts) (r : RadioReplies) : List Act :=
  if r.readData = K.RADIOLIB_ERR_NONE then
    [Act.printf "[LLCC68] Received packet!\n",
     Act.printf "[LLCC68] Data:\t\t",
     Act.printfBuffer r.byteArr_str,
     Act.printf "[LLCC68] RSSI:\t\t",
     Act.printfFloat Metric.RSSI,
     Act.printf " dBm\n",
     Act.printf "[LLCC68] SNR:\t\t",
     Act.printfFloat Metric.SNR,
     Act.printf " dB\n"] ++ led_blink 5
  else
    []

/-- The body of `for(;;)` (lines 183-252), run once. -/
def loopPass (K : Consts) (r : RadioReplies) (s : Session) : Session × List Act :=
  if s.operationDone then
    let s1 : Session := { s with operationDone := false }
    if s1.transmitFlag then
      ({ s1 with transmitFlag := false },
        Act.storeOperationDone false ::
          (reportTransmit K s1.transmissionState ++
            [Act.startReceive, Act.delay 10000]))
    else
      let count := wrapInt32 (s1.count + 1)
      ({ s1 with count := count, transmissionState := r.startTransmit, transmitFlag := true },
        Act.storeOperationDone false :: Act.readData 25 ::
          (reportReceive K r ++
            [Act.delay 1000,
             Act.printf "[LLCC68] Sending another packet ... ",
             Act.startTransmit (cstr (str_to_transmit count)),
             Act.delay 10000]))
  else
    (s, [])

/-! ## Start-up code and whole program -/

/-- What the SDK and the radio answer during start-up. -/
structure BootReplies where
  pico_led_init : Int
  begin : Int
  setOutputPower : Int → Int
  setCurrentLimit : Int → Int
  startTransmit : Int
  startReceive : Int

/-- Where the start-up code ends. `halted` is the endless `while (true) { hal->delay(10); }`,
whose delays are left out of the trace. -/
inductive Outcome where
  | asserted
  | returned (rc : Int)
  | halted
  | looping (s : Session)
  deriving DecidableEq

/-- The globals as initialised at lines 64-70, with `int count = 0`. -/
def initial (K : Consts) : Session :=
  { transmissionState := K.RADIOLIB_ERR_NONE
    transmitFlag := false
    operationDone := false
    count := 0 }

/-- The code of `main` before the loop (lines 126-178). `INITIATING_NODE` says whether the
macro of that name is defined; the source passes 22 and 120 as `outputPower` and
`currentLimit`. -/
def main (K : Consts) (INITIATING_NODE : Bool) (outputPower currentLimit : Int)
    (b : BootReplies) : Outcome × List Act :=
  if b.pico_led_init ≠ K.PICO_OK then
    (Outcome.asserted, [Act.pico_led_init])
  else if b.begin ≠ K.RADIOLIB_ERR_NONE then
    (Outcome.returned 1,
      [Act.pico_led_init,
       Act.printf "[LLCC68] Initializing ... ",
       Act.radioBegin,
       Act.printf ("failed, code " ++ fmtD b.begin ++ "\n")])
  else if b.setOutputPower outputPower = K.RADIOLIB_ERR_INVALID_OUTPUT_POWER then
    (Outcome.halted,
      [Act.pico_led_init,
       Act.printf "[LLCC68] Initializing ... ",
       Act.radioBegin,
       Act.printf "success!\n",
       Act.setOutputPower outputPower,
       Act.printf "Selected output power is invalid for this module!\n"])
  else if b.setCurrentLimit currentLimit = K.RADIOLIB_ERR_INVALID_CURRENT_LIMIT then
    (Outcome.halted,
      [Act.pico_led_init,
       Act.printf "[LLCC68] Initializing ... ",
       Act.radioBegin,
       Act.printf "success!\n",
       Act.setOutputPower outputPower,
       Act.printf "22dBm success!\n",
       Act.setCurrentLimit currentLimit,
       Act.printf "Selected current limit is invalid for this module!\n"])
  else
    let t : List Act :=
      [Act.pico_led_init,
       Act.printf "[LLCC68] Initializing ... ",
       Act.radioBegin,
       Act.printf "success!\n",
       Act.setOutputPower outputPower,
       Act.printf "22dBm success!\n",
       Act.setCurrentLimit currentLimit,
       Act.printf "120mA success!\n",
       Act.setDio1Action]
    if INITIATING_NODE then
      (Outcome.looping
          { initial K with transmissionState := b.startTransmit, transmitFlag := true },
        t ++ [Act.printf "[LLCC68] Sending first packet ... ",
              Act.startTransmit (cstr (str_to_transmit 0))])
    else if b.startReceive = K.RADIOLIB_ERR_NONE then
      (Outcome.looping (initial K),
        t ++ [Act.printf "[LLCC68] Starting to listen ... ",
              Act.startReceive,
              Act.printf "success!\n"])
    else
      (Outcome.halted,
        t ++ [Act.printf "[LLCC68] Starting to listen ... ",
              Act.startReceive,
              Act.printf ("failed, code " ++ fmtD b.startReceive ++ "\n")])

/-- Input of one pass of the loop: whether the interrupt callback `setFlag` ran since the
flag was last cleared, and the radio's answers. -/
structure PassInput where
  irq : Bool
  radio : RadioReplies
  deriving DecidableEq

/-- One pass, preceded by the interrupt when it fired. -/
def step (K : Consts) (i : PassInput) (s : Session) : Session × List Act :=
  loopPass K i.radio (if i.irq then setFlag s else s)

/-- Consecutive passes of the loop, one per input. -/
def runLoop (K : Consts) : List PassInput → Session → Session × List Act
  | [], s => (s, [])
  | i :: rest, s =>
    ((runLoop K rest (step K i s).1).1, (step K i s).2 ++ (runLoop K rest (step K i s).1).2)

/-- The trace of the whole program: the start-up code, then the passes of the loop when the
loop is reached. -/
def program (K : Consts) (INITIATING_NODE : Bool) (outputPower currentLimit : Int)
    (b : BootReplies) (ins : List PassInput) : List Act :=
  match (main K INITIATING_NODE outputPower currentLimit b).1 with
  | Outcome.looping s =>
    (main K INITIATING_NODE outputPower currentLimit b).2 ++ (runLoop K ins s).2
  | _ => (main K INITIATING_NODE outputPower currentLimit b).2

/-- The session after the given passes, when the loop is reached. -/
def sessionAfter (K : Consts) (INITIATING_NODE : Bool) (outputPower currentLimit : Int)
    (b : BootReplies) (ins : List PassInput) : Option Session :=
  match (main K INITIATING_NODE outputPower currentLimit b).1 with
  | Outcome.looping s => some (runLoop K ins s).1
  | _ => none

/-! ## The radio's configuration calls -/

/-- Modelled from the spec: the range check of the radio driver's output-power setter
(the driver is not among the sources). The valid range is -17..22. -/
def setOutputPower (K : Consts) (power : Int) : Int :=
  if -17 ≤ power ∧ power ≤ 22 then K.RADIOLIB_ERR_NONE
  else K.RADIOLIB_ERR_INVALID_OUTPUT_POWER

/-- Modelled from the spec: the range check of the radio driver's current-limit setter
(the driver is not among the sources). The valid range is 45..240, and 0 disables the
protection. -/
def setCurrentLimit (K : Consts) (limit : Int) : Int :=
  if limit = 0 ∨ (45 ≤ limit ∧ limit ≤ 240) then K.RADIOLIB_ERR_NONE
  else K.RADIOLIB_ERR_INVALID_CURRENT_LIMIT

/-- Start-up answers of a radio that initialises and whose configuration calls follow
the range checks above; `tx` and `rx` are what `startTransmit` and `startReceive` answer. -/
def specBoot (K : Consts) (tx rx : Int) : BootReplies :=
  { pico_led_init := K.PICO_OK
    begin := K.RADIOLIB_ERR_NONE
    setOutputPower := setOutputPower K
    setCurrentLimit := setCurrentLimit K
    startTransmit := tx
    startReceive := rx }

/-- Radio answers of a pass in which every call succeeds and nothing was received. -/
def okReplies (K : Consts) : RadioReplies :=
  { startReceive := K.RADIOLIB_ERR_NONE
    readData := K.RADIOLIB_ERR_NONE
    byteArr_str := List.replicate 25 NUL
    startTransmit := K.RADIOLIB_ERR_NONE }

/-- A pass that finds a completion and in which every radio call succeeds. -/
def okPass (K : Consts) : PassInput := { irq := true, radio := okReplies K }

end PingPong

namespace PingPong

/-! ## Arithmetic of `int` -/

theorem wrapInt32_range (x : Int) :
    -2147483648 ≤ wrapInt32 x ∧ wrapInt32 x ≤ 2147483647 := by
  unfold wrapInt32
  omega

theorem wrapInt32_of_range (x : Int) (h1 : -2147483648 ≤ x) (h2 : x ≤ 2147483647) :
    wrapInt32 x = x := by
  unfold wrapInt32
  omega

theorem wrapInt32_add (a k : Int) : wrapInt32 (wrapInt32 a + k) = wrapInt32 (a + k) := by
  unfold wrapInt32
  omega

/-! ## The formatted payload -/

theorem digitChar_ne_NUL (k : Nat) (hk : k < 10) : Nat.digitChar k ≠ NUL := by
  interval_cases k <;> decide

theorem toDigitsCore_ne_NUL (fuel : Nat) :
    ∀ (n : Nat) (ds : List Char), (∀ c ∈ ds, c ≠ NUL) →
      ∀ c ∈ Nat.toDigitsCore 10 fuel n ds, c ≠ NUL := by
  induction fuel with
  | zero =>
    intro n ds hds c hc
    exact hds c hc
  | succ fuel ih =>
    intro n ds hds c hc
    have hcons : ∀ x ∈ Nat.digitChar (n % 10) :: ds, x ≠ NUL := by
      intro x hx
      rcases List.mem_cons.mp hx with h | h
      · rw [h]
        exact digitChar_ne_NUL _ (Nat.mod_lt n (by decide))
      · exact hds x h
    simp only [Nat.toDigitsCore] at hc
    split_ifs at hc with h0
    · exact hcons c hc
    · exact ih (n / 10) _ hcons c hc

theorem repr_ne_NUL (n : Nat) : ∀ c ∈ (Nat.repr n).data, c ≠ NUL := by
  intro c hc
  have h : (Nat.repr n).data = Nat.toDigitsCore 10 (n + 1) n [] := rfl
  rw [h] at hc
  exact toDigitsCore_ne_NUL (n + 1) n [] (by simp) c hc

theorem fmtD_ne_NUL (x : Int) : ∀ c ∈ (fmtD x).data, c ≠ NUL := by
  intro c hc
  cases x with
  | ofNat n => exact repr_ne_NUL n c hc
  | negSucc n =>
    simp only [fmtD, String.data_append, List.mem_append] at hc
    rcases hc with h | h
    · have hm : c = '-' := by simpa using h
      rw [hm]
      decide
    · exact repr_ne_NUL (n + 1) c h

theorem helloText_ne_NUL (x : Int) : ∀ c ∈ (helloText x).data, c ≠ NUL := by
  intro c hc
  simp only [helloText, String.data_append, List.mem_append] at hc
  rcases hc with h | h
  · have hall : ∀ d ∈ "Hello World! ".data, d ≠ NUL := by decide
    exact hall c h
  · exact fmtD_ne_NUL x c h

theorem fmtD_length (x : Int) (h1 : -2147483648 ≤ x) (h2 : x ≤ 2147483647) :
    (fmtD x).length ≤ 11 := by
  cases x with
  | ofNat n =>
    have hn : n < 10 ^ 10 := by
      have : (n : Int) ≤ 2147483647 := h2
      omega
    have := Nat.repr_length n 10 (by decide) hn
    simp only [fmtD]
    omega
  | negSucc n =>
    have hn : n + 1 < 10 ^ 10 := by
      have : -2147483648 ≤ -((n : Int) + 1) := by
        rw [← Int.negSucc_eq]
        exact h1
      omega
    have := Nat.repr_length (n + 1) 10 (by decide) hn
    have hm : "-".length = 1 := by decide
    simp only [fmtD, String.length_append, hm]
    omega

theorem helloText_length (x : Int) :
    (helloText x).length = 13 + (fmtD x).length := by
  have hm : "Hello World! ".length = 13 := by decide
  simp only [helloText, String.length_append, hm]

theorem takeWhile_append_stop (p : Char → Bool) (l r : List Char) (a : Char)
    (hl : ∀ x ∈ l, p x = true) (ha : p a = false) :
    (l ++ a :: r).takeWhile p = l := by
  induction l with
  | nil => simp [List.takeWhile, ha]
  | cons x l ih =>
    have hx : p x = true := hl x (List.mem_cons_self x l)
    have hrest : ∀ y ∈ l, p y = true := fun y hy => hl y (List.mem_cons_of_mem x hy)
    simp [List.takeWhile, hx, ih hrest]

theorem snprintf_fits (text : String) (hlen : text.length ≤ 24) :
    snprintf (List.replicate 25 NUL) 25 text
      = text.data ++ List.replicate (25 - text.length) NUL := by
  have hdata : text.data.length ≤ 24 := hlen
  have htake : text.data.take 24 = text.data := List.take_of_length_le hdata
  have hrep : NUL :: List.replicate (25 - (text.data.length + 1)) NUL
      = List.replicate (25 - text.data.length) NUL := by
    have : 25 - text.data.length = (25 - (text.data.length + 1)) + 1 := by omega
    rw [this, List.replicate_succ]
  simp only [snprintf, htake, List.drop_replicate]
  simp only [Nat.reduceEqDiff, ↓reduceIte, Nat.add_one_sub_one, htake, hrep]
  rfl

theorem cstr_fits (text : String) (hlen : text.length ≤ 24)
    (hnul : ∀ c ∈ text.data, c ≠ NUL) :
    cstr (snprintf (List.replicate 25 NUL) 25 text) = text := by
  have hpos : 25 - text.length = (24 - text.length) + 1 := by omega
  rw [snprintf_fits text hlen, hpos, List.replicate_succ]
  unfold cstr
  rw [takeWhile_append_stop]
  · intro x hx
    simpa using hnul x hx
  · simp

theorem cstr_str_to_transmit (x : Int) (h1 : -2147483648 ≤ x) (h2 : x ≤ 2147483647) :
    cstr (str_to_transmit x) = helloText x := by
  have hlen : (helloText x).length ≤ 24 := by
    have := fmtD_length x h1 h2
    rw [helloText_length]
    omega
  exact cstr_fits (helloText x) hlen (helloText_ne_NUL x)

/-! ## One pass: the three cases -/

theorem loopPass_idle (K : Consts) (r : RadioReplies) (s : Session)
    (h : s.operationDone = false) : loopPass K r s = (s, []) := by
  simp [loopPass, h]

theorem loopPass_tx (K : Consts) (r : RadioReplies) (s : Session)
    (hd : s.operationDone = true) (ht : s.transmitFlag = true) :
    loopPass K r s =
      ({ s with operationDone := false, transmitFlag := false },
        Act.storeOperationDone false ::
          (reportTransmit K s.transmissionState ++ [Act.startReceive, Act.delay 10000])) := by
  simp [loopPass, hd, ht]

theorem loopPass_rx (K : Consts) (r : RadioReplies) (s : Session)
    (hd : s.operationDone = true) (ht : s.transmitFlag = false) :
    loopPass K r s =
      ({ transmissionState := r.startTransmit
         transmitFlag := true
         operationDone := false
         count := wrapInt32 (s.count + 1) },
        Act.storeOperationDone false :: Act.readData 25 ::
          (reportReceive K r ++
            [Act.delay 1000,
             Act.printf "[LLCC68] Sending another packet ... ",
             Act.startTransmit (cstr (str_to_transmit (wrapInt32 (s.count + 1)))),
             Act.delay 10000])) := by
  simp [loopPass, hd, ht]

theorem radioCommands_reportTransmit (K : Consts) (x : Int) :
    (reportTransmit K x).filter Act.isRadioCommand = [] := by
  unfold reportTransmit
  split_ifs <;> rfl

theorem radioCommands_reportReceive (K : Consts) (r : RadioReplies) :
    (reportReceive K r).filter Act.isRadioCommand = [] := by
  unfold reportReceive
  split_ifs <;> rfl

theorem txPayloads_reportTransmit (K : Consts) (x : Int) :
    (reportTransmit K x).filterMap Act.payload = [] := by
  unfold reportTransmit
  split_ifs <;> rfl

theorem txPayloads_reportReceive (K : Consts) (r : RadioReplies) :
    (reportReceive K r).filterMap Act.payload = [] := by
  unfold reportReceive
  split_ifs <;> rfl

theorem rxCompletions_reportTransmit (K : Consts) (x : Int) :
    (reportTransmit K x).countP Act.isReadData = 0 := by
  unfold reportTransmit
  split_ifs <;> rfl

theorem rxCompletions_reportReceive (K : Consts) (r : RadioReplies) :
    (reportReceive K r).countP Act.isReadData = 0 := by
  unfold reportReceive
  split_ifs <;> rfl

theorem unreported_reportReceive (K : Consts) (r : RadioReplies) :
    (reportReceive K r).filter (fun a => !a.isReport) = [] := by
  unfold reportReceive
  split_ifs <;> rfl

theorem unreported_rx (K : Consts) (r : RadioReplies) (s : Session)
    (hd : s.operationDone = true) (ht : s.transmitFlag = false) :
    unreported (loopPass K r s).2
      = [Act.storeOperationDone false, Act.readData 25, Act.delay 1000,
         Act.startTransmit (helloText (wrapInt32 (s.count + 1))), Act.delay 10000] := by
  have hw := wrapInt32_range (s.count + 1)
  rw [loopPass_rx K r s hd ht, cstr_str_to_transmit _ hw.1 hw.2]
  simp only [unreported, List.filter_cons, List.filter_append, unreported_reportReceive]
  rfl

theorem radioCommands_tx (K : Consts) (r : RadioReplies) (s : Session)
    (hd : s.operationDone = true) (ht : s.transmitFlag = true) :
    radioCommands (loopPass K r s).2 = [Act.startReceive] := by
  rw [loopPass_tx K r s hd ht]
  simp [radioCommands, List.filter_cons, radioCommands_reportTransmit, Act.isRadioCommand]

theorem radioCommands_rx (K : Consts) (r : RadioReplies) (s : Session)
    (hd : s.operationDone = true) (ht : s.transmitFlag = false) :
    radioCommands (loopPass K r s).2 =
      [Act.readData 25, Act.startTransmit (helloText (wrapInt32 (s.count + 1)))] := by
  have hw := wrapInt32_range (s.count + 1)
  rw [loopPass_rx K r s hd ht, cstr_str_to_transmit _ hw.1 hw.2]
  simp [radioCommands, List.filter_cons, radioCommands_reportReceive, Act.isRadioCommand]

theorem txPayloads_tx (K : Consts) (r : RadioReplies) (s : Session)
    (hd : s.operationDone = true) (ht : s.transmitFlag = true) :
    txPayloads (loopPass K r s).2 = [] := by
  rw [loopPass_tx K r s hd ht]
  simp [txPayloads, List.filterMap_cons, txPayloads_reportTransmit, Act.payload]

theorem txPayloads_rx (K : Consts) (r : RadioReplies) (s : Session)
    (hd : s.operationDone = true) (ht : s.transmitFlag = false) :
    txPayloads (loopPass K r s).2 = [helloText (wrapInt32 (s.count + 1))] := by
  have hw := wrapInt32_range (s.count + 1)
  rw [loopPass_rx K r s hd ht, cstr_str_to_transmit _ hw.1 hw.2]
  simp [txPayloads, List.filterMap_cons, txPayloads_reportReceive, Act.payload]

theorem rxCompletions_tx (K : Consts) (r : RadioReplies) (s : Session)
    (hd : s.operationDone = true) (ht : s.transmitFlag = true) :
    rxCompletions (loopPass K r s).2 = 0 := by
  rw [loopPass_tx K r s hd ht]
  simp [rxCompletions, List.countP_cons, rxCompletions_reportTransmit, Act.isReadData]

theorem rxCompletions_rx (K : Consts) (r : RadioReplies) (s : Session)
    (hd : s.operationDone = true) (ht : s.transmitFlag = false) :
    rxCompletions (loopPass K r s).2 = 1 := by
  rw [loopPass_rx K r s hd ht]
  simp [rxCompletions, List.countP_cons, rxCompletions_reportReceive, Act.isReadData]

/-! ## Runs of the loop -/

theorem runLoop_cons (K : Consts) (i : PassInput) (rest : List PassInput) (s : Session) :
    runLoop K (i :: rest) s =
      ((runLoop K rest (step K i s).1).1,
        (step K i s).2 ++ (runLoop K rest (step K i s).1).2) := rfl

theorem runLoop_append (K : Consts) (ins₁ ins₂ : List PassInput) :
    ∀ s : Session, runLoop K (ins₁ ++ ins₂) s =
      ((runLoop K ins₂ (runLoop K ins₁ s).1).1,
        (runLoop K ins₁ s).2 ++ (runLoop K ins₂ (runLoop K ins₁ s).1).2) := by
  induction ins₁ with
  | nil =>
    intro s
    simp [runLoop]
  | cons i rest ih =>
    intro s
    simp only [List.cons_append, runLoop_cons, ih, List.append_assoc]

theorem runLoop_quiet (K : Consts) (ins : List PassInput) (s : Session)
    (hirq : ∀ i ∈ ins, i.irq = false) (hd : s.operationDone = false) :
    runLoop K ins s = (s, []) := by
  induction ins with
  | nil => rfl
  | cons i rest ih =>
    have hi : i.irq = false := hirq i (List.mem_cons_self i rest)
    have hstep : step K i s = (s, []) := by
      simp only [step, hi]
      exact loopPass_idle K i.radio s hd
    have hrest : ∀ j ∈ rest, j.irq = false := fun j hj => hirq j (List.mem_cons_of_mem i hj)
    rw [runLoop_cons, hstep]
    simp [ih hrest]

/-- The three cases of a pass preceded by a possible interrupt. -/
theorem step_cases (K : Consts) (i : PassInput) (s : Session) :
    (step K i s = (s, []) ∧ s.operationDone = false ∧ i.irq = false) ∨
    ((step K i s).1 = { s with operationDone := false, transmitFlag := false } ∧
      s.transmitFlag = true ∧
      radioCommands (step K i s).2 = [Act.startReceive] ∧
      txPayloads (step K i s).2 = [] ∧ rxCompletions (step K i s).2 = 0) ∨
    ((step K i s).1 =
        { transmissionState := i.radio.startTransmit
          transmitFlag := true
          operationDone := false
          count := wrapInt32 (s.count + 1) } ∧
      s.transmitFlag = false ∧
      radioCommands (step K i s).2 =
        [Act.readData 25, Act.startTransmit (helloText (wrapInt32 (s.count + 1)))] ∧
      txPayloads (step K i s).2 = [helloText (wrapInt32 (s.count + 1))] ∧
      rxCompletions (step K i s).2 = 1) := by
  obtain ⟨ts, tf, od, c⟩ := s
  obtain ⟨irq, r⟩ := i
  by_cases hdone : (if irq then setFlag ⟨ts, tf, od, c⟩ else ⟨ts, tf, od, c⟩).operationDone = true
  · right
    cases tf with
    | true =>
      left
      have ht : (if irq then setFlag ⟨ts, true, od, c⟩ else ⟨ts, true, od, c⟩).transmitFlag
          = true := by
        cases irq <;> rfl
      refine ⟨?_, rfl, radioCommands_tx K r _ hdone ht, txPayloads_tx K r _ hdone ht,
        rxCompletions_tx K r _ hdone ht⟩
      simp only [step]
      rw [loopPass_tx K r _ hdone ht]
      cases irq <;> rfl
    | false =>
      right
      have ht : (if irq then setFlag ⟨ts, false, od, c⟩ else ⟨ts, false, od, c⟩).transmitFlag
          = false := by
        cases irq <;> rfl
      have hc : (if irq then setFlag ⟨ts, false, od, c⟩ else ⟨ts, false, od, c⟩).count = c := by
        cases irq <;> rfl
      have h1 := radioCommands_rx K r _ hdone ht
      have h2 := txPayloads_rx K r _ hdone ht
      rw [hc] at h1 h2
      refine ⟨?_, rfl, h1, h2, rxCompletions_rx K r _ hdone ht⟩
      simp only [step]
      rw [loopPass_rx K r _ hdone ht, hc]
  · left
    cases irq with
    | true => exact absurd rfl hdone
    | false =>
      have hod : od = false := by
        cases od with
        | true => exact absurd rfl hdone
        | false => rfl
      subst hod
      exact ⟨loopPass_idle K r _ rfl, rfl, rfl⟩

theorem rxCompletions_append (t₁ t₂ : List Act) :
    rxCompletions (t₁ ++ t₂) = rxCompletions t₁ + rxCompletions t₂ := by
  simp [rxCompletions, List.countP_append]

theorem txPayloads_append (t₁ t₂ : List Act) :
    txPayloads (t₁ ++ t₂) = txPayloads t₁ ++ txPayloads t₂ := by
  simp [txPayloads, List.filterMap_append]

theorem radioCommands_append (t₁ t₂ : List Act) :
    radioCommands (t₁ ++ t₂) = radioCommands t₁ ++ radioCommands t₂ := by
  simp [radioCommands, List.filter_append]

/-- After a run, `count` is its start value plus the number of processed
receive-completions, wrapped to 32 bits. -/
theorem runLoop_count (K : Consts) (ins : List PassInput) :
    ∀ s : Session, -2147483648 ≤ s.count → s.count ≤ 2147483647 →
      (runLoop K ins s).1.count = wrapInt32 (s.count + rxCompletions (runLoop K ins s).2) := by
  induction ins with
  | nil =>
    intro s h1 h2
    simp [runLoop, rxCompletions, wrapInt32_of_range s.count h1 h2]
  | cons i rest ih =>
    intro s h1 h2
    rw [runLoop_cons, rxCompletions_append]
    rcases step_cases K i s with ⟨he, _, _⟩ | ⟨hs, _, _, _, hrx⟩ | ⟨hs, _, _, _, hrx⟩
    · rw [he]
      simpa [rxCompletions] using ih s h1 h2
    · have hc : (step K i s).1.count = s.count := by rw [hs]
      have := ih (step K i s).1 (by rw [hc]; exact h1) (by rw [hc]; exact h2)
      simp only [this, hc, hrx]
      congr 1
      omega
    · have hc : (step K i s).1.count = wrapInt32 (s.count + 1) := by rw [hs]
      have hw := wrapInt32_range (s.count + 1)
      have := ih (step K i s).1 (by rw [hc]; exact hw.1) (by rw [hc]; exact hw.2)
      simp only [this, hc, hrx, wrapInt32_add]
      congr 1
      push_cast
      omega

/-- Every processed receive-completion sends exactly one message. -/
theorem runLoop_txPayloads_length (K : Consts) (ins : List PassInput) :
    ∀ s : Session,
      (txPayloads (runLoop K ins s).2).length = rxCompletions (runLoop K ins s).2 := by
  induction ins with
  | nil =>
    intro s
    rfl
  | cons i rest ih =>
    intro s
    rw [runLoop_cons, rxCompletions_append, txPayloads_append, List.length_append, ih]
    rcases step_cases K i s with ⟨he, _, _⟩ | ⟨_, _, _, htx, hrx⟩ | ⟨_, _, _, htx, hrx⟩
    · rw [he]
      rfl
    · rw [htx, hrx]
      rfl
    · rw [htx, hrx]
      rfl

/-- The message number `k` (from 0) sent by a run of the loop carries the start value of
`count` plus `k + 1`, wrapped to 32 bits. -/
theorem runLoop_txPayloads_get (K : Consts) (ins : List PassInput) :
    ∀ (s : Session) (k : Nat) (msg : String),
      (txPayloads (runLoop K ins s).2)[k]? = some msg →
        msg = helloText (wrapInt32 (s.count + k + 1)) := by
  induction ins with
  | nil =>
    intro s k msg h
    simp [runLoop, txPayloads] at h
  | cons i rest ih =>
    intro s k msg h
    rw [runLoop_cons, txPayloads_append] at h
    rcases step_cases K i s with ⟨he, _, _⟩ | ⟨hs, _, _, htx, _⟩ | ⟨hs, _, _, htx, _⟩
    · rw [he] at h
      simp only [txPayloads, List.filterMap_nil, List.nil_append] at h
      exact ih s k msg h
    · rw [htx, List.nil_append] at h
      have hc : (step K i s).1.count = s.count := by rw [hs]
      have := ih _ k msg h
      rw [hc] at this
      exact this
    · rw [htx] at h
      have hc : (step K i s).1.count = wrapInt32 (s.count + 1) := by rw [hs]
      cases k with
      | zero =>
        simp only [List.singleton_append, List.getElem?_cons_zero, Option.some.injEq] at h
        rw [← h]
        simp
      | succ k =>
        simp only [List.singleton_append, List.getElem?_cons_succ] at h
        have := ih _ k msg h
        rw [hc, Int.add_assoc (wrapInt32 (s.count + 1)), wrapInt32_add] at this
        rw [this]
        congr 2
        push_cast
        omega

theorem step_ok_rx (K : Consts) (s : Session) (hs : s.transmitFlag = false) :
    (step K (okPass K) s).1.transmitFlag = true ∧
      rxCompletions (step K (okPass K) s).2 = 1 := by
  rcases step_cases K (okPass K) s with ⟨_, _, hirq⟩ | ⟨_, ht, _⟩ | ⟨hst, _, _, _, hrx⟩
  · exact absurd hirq (by simp [okPass])
  · rw [hs] at ht
    exact absurd ht (by decide)
  · exact ⟨by rw [hst], hrx⟩

theorem step_ok_tx (K : Consts) (s : Session) (hs : s.transmitFlag = true) :
    (step K (okPass K) s).1.transmitFlag = false ∧
      rxCompletions (step K (okPass K) s).2 = 0 := by
  rcases step_cases K (okPass K) s with ⟨_, _, hirq⟩ | ⟨hst, _, _, _, hrx⟩ | ⟨_, ht, _⟩
  · exact absurd hirq (by simp [okPass])
  · exact ⟨by rw [hst], hrx⟩
  · rw [hs] at ht
    exact absurd ht (by decide)

/-- Passes that each find a completion and whose radio calls succeed, two per cycle. -/
theorem runLoop_okCycles (K : Consts) (m : Nat) :
    ∀ s : Session, s.transmitFlag = false →
      (runLoop K (List.replicate (2 * m) (okPass K)) s).1.transmitFlag = false ∧
      rxCompletions (runLoop K (List.replicate (2 * m) (okPass K)) s).2 = m := by
  induction m with
  | zero =>
    intro s hs
    exact ⟨hs, rfl⟩
  | succ m ih =>
    intro s hs
    have hrep : List.replicate (2 * (m + 1)) (okPass K)
        = okPass K :: okPass K :: List.replicate (2 * m) (okPass K) := by
      rw [Nat.mul_succ, List.replicate_succ, List.replicate_succ]
    obtain ⟨hf1, hr1⟩ := step_ok_rx K s hs
    obtain ⟨hf2, hr2⟩ := step_ok_tx K (step K (okPass K) s).1 hf1
    obtain ⟨ihf, ihr⟩ := ih _ hf2
    rw [hrep, runLoop_cons, runLoop_cons]
    refine ⟨ihf, ?_⟩
    rw [rxCompletions_append, rxCompletions_append, ihr, hr1, hr2]
    omega

/-! ## Properties of one pass -/

/-- C1: a pass of the main loop that observes `operationDone` true leaves the session in the
opposite mode, whatever the radio answers and whatever state the earlier completion events
led to: after a transmit-completion (`transmitFlag` true) the flag is false, after a
receive-completion (`transmitFlag` false, `readData` succeeding or failing) it is true. -/
theorem mode_alternates (K : Consts) (r : RadioReplies) (s : Session)
    (hdone : s.operationDone = true) :
    (s.transmitFlag = true → (loopPass K r s).1.transmitFlag = false) ∧
    (s.transmitFlag = false → (loopPass K r s).1.transmitFlag = true) := by
  constructor
  · intro ht
    rw [loopPass_tx K r s hdone ht]
  · intro ht
    rw [loopPass_rx K r s hdone ht]

theorem mode_alternates_witness :
    (loopPass radiolib (okReplies radiolib) ⟨0, true, true, 0⟩).1.transmitFlag = false ∧
    (loopPass radiolib { okReplies radiolib with readData := -6 }
      ⟨0, false, true, 0⟩).1.transmitFlag = true :=
  ⟨(mode_alternates radiolib (okReplies radiolib) ⟨0, true, true, 0⟩ rfl).1 rfl,
   (mode_alternates radiolib { okReplies radiolib with readData := -6 }
      ⟨0, false, true, 0⟩ rfl).2 rfl⟩

/-- C3: a pass of the main loop with `operationDone` false is a no-op: the session
(`transmitFlag`, `count`, `transmissionState`, `operationDone`) is unchanged and the pass has
no effect at all, in particular it issues no radio command. -/
theorem poll_without_completion_is_noop (K : Consts) (r : RadioReplies) (s : Session)
    (hidle : s.operationDone = false) :
    loopPass K r s = (s, []) ∧ radioCommands (loopPass K r s).2 = [] := by
  rw [loopPass_idle K r s hidle]
  exact ⟨rfl, rfl⟩

theorem poll_without_completion_is_noop_witness :
    loopPass radiolib (okReplies radiolib) ⟨-2, true, false, 7⟩ = (⟨-2, true, false, 7⟩, []) ∧
    radioCommands (loopPass radiolib (okReplies radiolib) ⟨-2, true, false, 7⟩).2 = [] :=
  poll_without_completion_is_noop radiolib (okReplies radiolib) ⟨-2, true, false, 7⟩ rfl

theorem store_not_mem_reportTransmit (K : Consts) (x : Int) (v : Bool) :
    Act.storeOperationDone v ∉ reportTransmit K x := by
  unfold reportTransmit
  split_ifs <;> simp

theorem store_not_mem_reportReceive (K : Consts) (r : RadioReplies) (v : Bool) :
    Act.storeOperationDone v ∉ reportReceive K r := by
  unfold reportReceive
  split_ifs <;> simp [led_blink]

/-- C4: a pass that observes `operationDone` true clears it as its first effect, before any
report and any radio command, and does not store to it again; the flag is false when the pass
ends, so a second pass, and any number of further passes before the next interrupt, process
nothing. -/
theorem completion_processed_once (K : Consts) (r : RadioReplies) (s : Session)
    (hdone : s.operationDone = true) :
    (loopPass K r s).2.head? = some (Act.storeOperationDone false) ∧
    (∀ v, Act.storeOperationDone v ∉ (loopPass K r s).2.tail) ∧
    radioCommands (loopPass K r s).2.tail = radioCommands (loopPass K r s).2 ∧
    (loopPass K r s).1.operationDone = false ∧
    (∀ r', loopPass K r' (loopPass K r s).1 = ((loopPass K r s).1, [])) ∧
    (∀ ins : List PassInput, (∀ i ∈ ins, i.irq = false) →
      runLoop K ins (loopPass K r s).1 = ((loopPass K r s).1, [])) := by
  have hoff : (loopPass K r s).1.operationDone = false := by
    cases ht : s.transmitFlag with
    | true => rw [loopPass_tx K r s hdone ht]
    | false => rw [loopPass_rx K r s hdone ht]
  refine ⟨?_, ?_, ?_, hoff, fun r' => loopPass_idle K r' _ hoff,
    fun ins hirq => runLoop_quiet K ins _ hirq hoff⟩
  · cases ht : s.transmitFlag with
    | true => rw [loopPass_tx K r s hdone ht]; rfl
    | false => rw [loopPass_rx K r s hdone ht]; rfl
  · intro v
    cases ht : s.transmitFlag with
    | true =>
      rw [loopPass_tx K r s hdone ht]
      simp [store_not_mem_reportTransmit]
    | false =>
      rw [loopPass_rx K r s hdone ht]
      simp [store_not_mem_reportReceive]
  · cases ht : s.transmitFlag with
    | true => rw [loopPass_tx K r s hdone ht]; rfl
    | false => rw [loopPass_rx K r s hdone ht]; rfl

theorem completion_processed_once_witness :
    (loopPass radiolib (okReplies radiolib) ⟨0, false, true, 3⟩).2.head?
      = some (Act.storeOperationDone false) ∧
    (loopPass radiolib (okReplies radiolib) ⟨0, false, true, 3⟩).1.operationDone = false ∧
    loopPass radiolib (okReplies radiolib)
        (loopPass radiolib (okReplies radiolib) ⟨0, false, true, 3⟩).1
      = ((loopPass radiolib (okReplies radiolib) ⟨0, false, true, 3⟩).1, []) :=
  have h := completion_processed_once radiolib (okReplies radiolib) ⟨0, false, true, 3⟩ rfl
  ⟨h.1, h.2.2.2.1, h.2.2.2.2.1 (okReplies radiolib)⟩

/-- C5, as amended: processing a receive-completion gives, for every error code `e`
returned by `readData`, the same next session and the same radio commands as a successful
`readData`: `count` is incremented (as a 32-bit `int`), the payload is the text formatted
with the new `count`, `startTransmit` is issued with it, `transmitFlag` becomes true and no
`startReceive` is issued. The two traces differ by the report of the successful reception
only, which the failing pass leaves out: nine console outputs and `led_blink(5)`, that is
ten LED writes and ten sleeps of 250 ms. -/
theorem receive_failure_continues (K : Consts) (r : RadioReplies) (s : Session) (e : Int)
    (hdone : s.operationDone = true) (hrx : s.transmitFlag = false)
    (herr : e ≠ K.RADIOLIB_ERR_NONE) :
    (loopPass K { r with readData := e } s).1
      = (loopPass K { r with readData := K.RADIOLIB_ERR_NONE } s).1 ∧
    radioCommands (loopPass K { r with readData := e } s).2
      = radioCommands (loopPass K { r with readData := K.RADIOLIB_ERR_NONE } s).2 ∧
    (loopPass K { r with readData := e } s).1.count = wrapInt32 (s.count + 1) ∧
    (loopPass K { r with readData := e } s).1.transmitFlag = true ∧
    radioCommands (loopPass K { r with readData := e } s).2
      = [Act.readData 25, Act.startTransmit (helloText (wrapInt32 (s.count + 1)))] ∧
    Act.startReceive ∉ (loopPass K { r with readData := e } s).2 ∧
    (loopPass K { r with readData := e } s).2
      = [Act.storeOperationDone false, Act.readData 25] ++
          [Act.delay 1000, Act.printf "[LLCC68] Sending another packet ... ",
           Act.startTransmit (helloText (wrapInt32 (s.count + 1))), Act.delay 10000] ∧
    (loopPass K { r with readData := K.RADIOLIB_ERR_NONE } s).2
      = [Act.storeOperationDone false, Act.readData 25] ++
          ([Act.printf "[LLCC68] Received packet!\n",
            Act.printf "[LLCC68] Data:\t\t",
            Act.printfBuffer r.byteArr_str,
            Act.printf "[LLCC68] RSSI:\t\t",
            Act.printfFloat Metric.RSSI,
            Act.printf " dBm\n",
            Act.printf "[LLCC68] SNR:\t\t",
            Act.printfFloat Metric.SNR,
            Act.printf " dB\n"] ++ led_blink 5) ++
          [Act.delay 1000, Act.printf "[LLCC68] Sending another packet ... ",
           Act.startTransmit (helloText (wrapInt32 (s.count + 1))), Act.delay 10000] ∧
    led_blink 5 =
      [Act.pico_set_led true, Act.sleep_ms 250, Act.pico_set_led false, Act.sleep_ms 250,
       Act.pico_set_led true, Act.sleep_ms 250, Act.pico_set_led false, Act.sleep_ms 250,
       Act.pico_set_led true, Act.sleep_ms 250, Act.pico_set_led false, Act.sleep_ms 250,
       Act.pico_set_led true, Act.sleep_ms 250, Act.pico_set_led false, Act.sleep_ms 250,
       Act.pico_set_led true, Act.sleep_ms 250, Act.pico_set_led false, Act.sleep_ms 250] ∧
    unreported (loopPass K { r with readData := e } s).2
      = unreported (loopPass K { r with readData := K.RADIOLIB_ERR_NONE } s).2 := by
  have hw := wrapInt32_range (s.count + 1)
  have hbad : reportReceive K { r with readData := e } = [] := by
    simp [reportReceive, herr]
  have hgood : reportReceive K { r with readData := K.RADIOLIB_ERR_NONE }
      = [Act.printf "[LLCC68] Received packet!\n",
         Act.printf "[LLCC68] Data:\t\t",
         Act.printfBuffer r.byteArr_str,
         Act.printf "[LLCC68] RSSI:\t\t",
         Act.printfFloat Metric.RSSI,
         Act.printf " dBm\n",
         Act.printf "[LLCC68] SNR:\t\t",
         Act.printfFloat Metric.SNR,
         Act.printf " dB\n"] ++ led_blink 5 := by
    simp [reportReceive]
  have htrace : (loopPass K { r with readData := e } s).2
      = [Act.storeOperationDone false, Act.readData 25] ++
          [Act.delay 1000, Act.printf "[LLCC68] Sending another packet ... ",
           Act.startTransmit (helloText (wrapInt32 (s.count + 1))), Act.delay 10000] := by
    rw [loopPass_rx K _ s hdone hrx, hbad, cstr_str_to_transmit _ hw.1 hw.2]
    rfl
  refine ⟨?_, ?_, ?_, ?_, radioCommands_rx K _ s hdone hrx, ?_, htrace, ?_, rfl, ?_⟩
  · rw [loopPass_rx K _ s hdone hrx, loopPass_rx K _ s hdone hrx]
  · rw [radioCommands_rx K _ s hdone hrx, radioCommands_rx K _ s hdone hrx]
  · rw [loopPass_rx K _ s hdone hrx]
  · rw [loopPass_rx K _ s hdone hrx]
  · rw [htrace]
    simp
  · rw [loopPass_rx K _ s hdone hrx, cstr_str_to_transmit _ hw.1 hw.2, hgood]
    simp
  · rw [unreported_rx K _ s hdone hrx, unreported_rx K _ s hdone hrx]

theorem receive_failure_continues_witness :
    (loopPass radiolib { okReplies radiolib with readData := -6 } ⟨0, false, true, 0⟩).1
      = (loopPass radiolib { okReplies radiolib with readData := 0 } ⟨0, false, true, 0⟩).1 ∧
    radioCommands
        (loopPass radiolib { okReplies radiolib with readData := -6 } ⟨0, false, true, 0⟩).2
      = [Act.readData 25, Act.startTransmit (helloText (wrapInt32 (0 + 1)))] ∧
    unreported
        (loopPass radiolib { okReplies radiolib with readData := -6 } ⟨0, false, true, 0⟩).2
      = unreported
        (loopPass radiolib { okReplies radiolib with readData := 0 } ⟨0, false, true, 0⟩).2 :=
  have h := receive_failure_continues radiolib (okReplies radiolib) ⟨0, false, true, 0⟩ (-6)
    rfl rfl (by decide)
  ⟨h.1, h.2.2.2.2.1, h.2.2.2.2.2.2.2.2.2⟩

/-- C5 as stated fails in its last sentence: between a receive pass whose `readData`
returns the code -6 and one whose `readData` succeeds, more than the console output
differs. Without the console output the failing pass has 5 effects and the successful one
25: the successful pass also switches the LED on and sleeps, which the failing one never
does. -/
theorem receive_failure_continues_counterexample :
    (nonConsole (loopPass radiolib { okReplies radiolib with readData := -6 }
      ⟨0, false, true, 0⟩).2).length = 5 ∧
    (nonConsole (loopPass radiolib { okReplies radiolib with readData := 0 }
      ⟨0, false, true, 0⟩).2).length = 25 ∧
    Act.pico_set_led true ∈
      (loopPass radiolib { okReplies radiolib with readData := 0 } ⟨0, false, true, 0⟩).2 ∧
    Act.sleep_ms 250 ∈
      (loopPass radiolib { okReplies radiolib with readData := 0 } ⟨0, false, true, 0⟩).2 ∧
    Act.pico_set_led true ∉
      (loopPass radiolib { okReplies radiolib with readData := -6 } ⟨0, false, true, 0⟩).2 ∧
    Act.sleep_ms 250 ∉
      (loopPass radiolib { okReplies radiolib with readData := -6 } ⟨0, false, true, 0⟩).2 := by
  decide

/-- C10: for every 32-bit signed value of `count` the text "Hello World! " followed by the
decimal rendering of `count` has at most 24 characters, so `snprintf` into the 25-byte
zero-initialised `str_to_transmit` stores the whole text and a terminating zero byte: the
buffer is the text followed by zero bytes only, and the C string it holds is the text. -/
theorem payload_never_truncated (count : Int)
    (hlo : -2147483648 ≤ count) (hhi : count ≤ 2147483647) :
    (helloText count).length ≤ 24 ∧
    (str_to_transmit count).length = 25 ∧
    str_to_transmit count
      = (helloText count).data ++ List.replicate (25 - (helloText count).length) NUL ∧
    (∀ c ∈ (helloText count).data, c ≠ NUL) ∧
    cstr (str_to_transmit count) = helloText count := by
  have hlen : (helloText count).length ≤ 24 := by
    have := fmtD_length count hlo hhi
    rw [helloText_length]
    omega
  have hbuf := snprintf_fits (helloText count) hlen
  refine ⟨hlen, ?_, hbuf, helloText_ne_NUL count, cstr_str_to_transmit count hlo hhi⟩
  unfold str_to_transmit
  rw [hbuf, List.length_append, List.length_replicate]
  have : (helloText count).data.length = (helloText count).length := rfl
  omega

theorem payload_never_truncated_witness :
    (helloText (-2147483648)).length ≤ 24 ∧
    (str_to_transmit (-2147483648)).length = 25 ∧
    cstr (str_to_transmit (-2147483648)) = helloText (-2147483648) :=
  have h := payload_never_truncated (-2147483648) (by decide) (by decide)
  ⟨h.1, h.2.1, h.2.2.2.2⟩

/-! ## Start-up -/

theorem hello_zero : cstr (str_to_transmit 0) = "Hello World! 0" := by decide

theorem main_outcome (K : Consts) (node : Bool) (p l : Int) (b : BootReplies) :
    (main K node p l b).1 =
      if b.pico_led_init ≠ K.PICO_OK then Outcome.asserted
      else if b.begin ≠ K.RADIOLIB_ERR_NONE then Outcome.returned 1
      else if b.setOutputPower p = K.RADIOLIB_ERR_INVALID_OUTPUT_POWER then Outcome.halted
      else if b.setCurrentLimit l = K.RADIOLIB_ERR_INVALID_CURRENT_LIMIT then Outcome.halted
      else if node then
        Outcome.looping
          { initial K with transmissionState := b.startTransmit, transmitFlag := true }
      else if b.startReceive = K.RADIOLIB_ERR_NONE then Outcome.looping (initial K)
      else Outcome.halted := by
  unfold main
  split_ifs <;> rfl

theorem main_radioCommands (K : Consts) (node : Bool) (p l : Int) (b : BootReplies) :
    radioCommands (main K node p l b).2 =
      if b.pico_led_init ≠ K.PICO_OK then []
      else if b.begin ≠ K.RADIOLIB_ERR_NONE then []
      else if b.setOutputPower p = K.RADIOLIB_ERR_INVALID_OUTPUT_POWER then []
      else if b.setCurrentLimit l = K.RADIOLIB_ERR_INVALID_CURRENT_LIMIT then []
      else if node then [Act.startTransmit "Hello World! 0"]
      else [Act.startReceive] := by
  unfold main
  rw [hello_zero]
  split_ifs <;> rfl

theorem main_txPayloads (K : Consts) (node : Bool) (p l : Int) (b : BootReplies) (s : Session)
    (h : (main K node p l b).1 = Outcome.looping s) :
    txPayloads (main K node p l b).2 = if node then ["Hello World! 0"] else [] := by
  unfold main at h ⊢
  rw [hello_zero]
  split_ifs at h ⊢ <;> rfl

theorem main_count (K : Consts) (node : Bool) (p l : Int) (b : BootReplies) (s : Session)
    (h : (main K node p l b).1 = Outcome.looping s) :
    s.count = 0 ∧ s.operationDone = false ∧ s.transmitFlag = node := by
  rw [main_outcome] at h
  split_ifs at h with h1 h2 h3 h4 h5 h6
  · have hs := Outcome.looping.inj h
    subst hs
    exact ⟨rfl, rfl, h5.symm⟩
  · have hs := Outcome.looping.inj h
    subst hs
    refine ⟨rfl, rfl, ?_⟩
    cases node with
    | true => exact absurd rfl h5
    | false => rfl

theorem program_looping (K : Consts) (node : Bool) (p l : Int) (b : BootReplies)
    (ins : List PassInput) (s : Session) (h : (main K node p l b).1 = Outcome.looping s) :
    program K node p l b ins = (main K node p l b).2 ++ (runLoop K ins s).2 := by
  unfold program
  rw [h]

theorem program_stopped (K : Consts) (node : Bool) (p l : Int) (b : BootReplies)
    (ins : List PassInput) (h : ∀ s, (main K node p l b).1 ≠ Outcome.looping s) :
    program K node p l b ins = (main K node p l b).2 := by
  unfold program
  cases hm : (main K node p l b).1 with
  | looping s => exact absurd hm (h s)
  | asserted => rfl
  | returned rc => rfl
  | halted => rfl

theorem sessionAfter_looping (K : Consts) (node : Bool) (p l : Int) (b : BootReplies)
    (ins : List PassInput) (s : Session) (h : (main K node p l b).1 = Outcome.looping s) :
    sessionAfter K node p l b ins = some (runLoop K ins s).1 := by
  unfold sessionAfter
  rw [h]

theorem isStart_of_radioCommands_nil (t : List Act) (h : radioCommands t = []) :
    ∀ a ∈ t, a.isStart = false := by
  intro a ha
  have hf : a.isRadioCommand = false := by
    have := List.filter_eq_nil_iff.mp h a ha
    simpa using this
  cases a <;> first | rfl | exact absurd hf (by simp [Act.isRadioCommand])

theorem program_split (K : Consts) (node : Bool) (p l : Int) (b : BootReplies)
    (ins : List PassInput) :
    ∃ rest, program K node p l b ins = (main K node p l b).2 ++ rest := by
  unfold program
  cases (main K node p l b).1 with
  | looping s => exact ⟨_, rfl⟩
  | asserted => exact ⟨[], (List.append_nil _).symm⟩
  | returned rc => exact ⟨[], (List.append_nil _).symm⟩
  | halted => exact ⟨[], (List.append_nil _).symm⟩

/-- C6: with the radio's range checks (output power -17..22, current limit 45..240 or 0),
an output power outside the range, and likewise a current limit outside the range, makes
the configuration call return its configuration error, the start-up code ends in the endless
wait, and the program never issues `startTransmit` or `startReceive`, whatever happens
afterwards; with both values in range the calls succeed and the program issues its first
radio command (`startTransmit` on the initiator, `startReceive` on the responder). -/
theorem config_rejection_halts (K : Consts)
    (hP : K.RADIOLIB_ERR_NONE ≠ K.RADIOLIB_ERR_INVALID_OUTPUT_POWER)
    (hL : K.RADIOLIB_ERR_NONE ≠ K.RADIOLIB_ERR_INVALID_CURRENT_LIMIT)
    (node : Bool) (p l tx rx : Int) (ins : List PassInput) :
    (¬(-17 ≤ p ∧ p ≤ 22) →
      setOutputPower K p = K.RADIOLIB_ERR_INVALID_OUTPUT_POWER ∧
      (main K node p l (specBoot K tx rx)).1 = Outcome.halted ∧
      ∀ a ∈ program K node p l (specBoot K tx rx) ins, a.isStart = false) ∧
    (¬(l = 0 ∨ (45 ≤ l ∧ l ≤ 240)) →
      setCurrentLimit K l = K.RADIOLIB_ERR_INVALID_CURRENT_LIMIT ∧
      (main K node p l (specBoot K tx rx)).1 = Outcome.halted ∧
      ∀ a ∈ program K node p l (specBoot K tx rx) ins, a.isStart = false) ∧
    ((-17 ≤ p ∧ p ≤ 22) → (l = 0 ∨ (45 ≤ l ∧ l ≤ 240)) →
      setOutputPower K p = K.RADIOLIB_ERR_NONE ∧
      setCurrentLimit K l = K.RADIOLIB_ERR_NONE ∧
      (radioCommands (program K node p l (specBoot K tx rx) ins)).head?
        = some (if node then Act.startTransmit "Hello World! 0" else Act.startReceive)) := by
  have hout := main_outcome K node p l (specBoot K tx rx)
  have hcmd := main_radioCommands K node p l (specBoot K tx rx)
  have hstop : (main K node p l (specBoot K tx rx)).1 = Outcome.halted →
      radioCommands (main K node p l (specBoot K tx rx)).2 = [] →
      ∀ a ∈ program K node p l (specBoot K tx rx) ins, a.isStart = false := by
    intro hh hn
    rw [program_stopped K node p l _ ins (by rw [hh]; intro s; simp)]
    exact isStart_of_radioCommands_nil _ hn
  refine ⟨?_, ?_, ?_⟩
  · intro hp
    have e : setOutputPower K p = K.RADIOLIB_ERR_INVALID_OUTPUT_POWER := by
      simp only [setOutputPower, hp, if_false]
    have hh : (main K node p l (specBoot K tx rx)).1 = Outcome.halted := by
      rw [hout]
      simp [specBoot, e]
    have hn : radioCommands (main K node p l (specBoot K tx rx)).2 = [] := by
      rw [hcmd]
      simp [specBoot, e]
    exact ⟨e, hh, hstop hh hn⟩
  · intro hl
    have e : setCurrentLimit K l = K.RADIOLIB_ERR_INVALID_CURRENT_LIMIT := by
      simp only [setCurrentLimit, hl, if_false]
    have hh : (main K node p l (specBoot K tx rx)).1 = Outcome.halted := by
      rw [hout]
      simp [specBoot, e]
    have hn : radioCommands (main K node p l (specBoot K tx rx)).2 = [] := by
      rw [hcmd]
      simp [specBoot, e]
    exact ⟨e, hh, hstop hh hn⟩
  · intro hp hl
    have e1 : setOutputPower K p = K.RADIOLIB_ERR_NONE := by
      simp only [setOutputPower, hp, and_self, if_true]
    have e2 : setCurrentLimit K l = K.RADIOLIB_ERR_NONE := by
      simp only [setCurrentLimit, hl, if_true]
    refine ⟨e1, e2, ?_⟩
    obtain ⟨rest, hrest⟩ := program_split K node p l (specBoot K tx rx) ins
    rw [hrest, radioCommands_append, hcmd]
    simp only [specBoot, e1, e2]
    cases node <;> simp [hP, hL]

theorem config_rejection_halts_witness :
    (setOutputPower radiolib 25 = radiolib.RADIOLIB_ERR_INVALID_OUTPUT_POWER ∧
      (main radiolib false 25 120 (specBoot radiolib 0 0)).1 = Outcome.halted ∧
      ∀ a ∈ program radiolib false 25 120 (specBoot radiolib 0 0) [okPass radiolib],
        a.isStart = false) ∧
    (setOutputPower radiolib 22 = radiolib.RADIOLIB_ERR_NONE ∧
      setCurrentLimit radiolib 120 = radiolib.RADIOLIB_ERR_NONE ∧
      (radioCommands (program radiolib false 22 120 (specBoot radiolib 0 0)
        [okPass radiolib])).head? = some Act.startReceive) :=
  ⟨(config_rejection_halts radiolib (by decide) (by decide) false 25 120 0 0
      [okPass radiolib]).1 (by decide),
   (config_rejection_halts radiolib (by decide) (by decide) false 22 120 0 0
      [okPass radiolib]).2.2 (by decide) (by decide)⟩

theorem helloText_ofNat (m : Nat) : helloText (m : Int) = "Hello World! " ++ Nat.repr m := rfl

theorem main_txPayloads_stopped (K : Consts) (node : Bool) (p l : Int) (b : BootReplies)
    (h : ∀ s, (main K node p l b).1 ≠ Outcome.looping s) :
    txPayloads (main K node p l b).2 = [] := by
  unfold main at h ⊢
  split_ifs at h ⊢ <;> first | rfl | exact absurd rfl (h _)

/-- The payloads of the whole program: the one of the start-up code on the initiator, then
those of the loop, numbered from the start value 0 of `count`. -/
theorem program_txPayloads_get (K : Consts) (node : Bool) (p l : Int) (b : BootReplies)
    (ins : List PassInput) (k : Nat) (msg : String)
    (h : (txPayloads (program K node p l b ins))[k]? = some msg) :
    msg = helloText (wrapInt32 (if node then (k : Int) else (k : Int) + 1)) := by
  by_cases hloop : ∃ s, (main K node p l b).1 = Outcome.looping s
  · obtain ⟨s, hs⟩ := hloop
    have hc := (main_count K node p l b s hs).1
    rw [program_looping K node p l b ins s hs, txPayloads_append,
      main_txPayloads K node p l b s hs] at h
    cases node with
    | true =>
      cases k with
      | zero =>
        simp only [if_true, List.singleton_append, List.getElem?_cons_zero,
          Option.some.injEq] at h
        rw [← h]
        decide
      | succ k =>
        simp only [if_true, List.singleton_append, List.getElem?_cons_succ] at h
        have := runLoop_txPayloads_get K ins s k msg h
        rw [this, hc]
        simp only [if_true]
        congr 2
        push_cast
        omega
    | false =>
      simp only [Bool.false_eq_true, if_false, List.nil_append] at h
      have := runLoop_txPayloads_get K ins s k msg h
      rw [this, hc]
      simp only [Bool.false_eq_true, if_false]
      congr 2
      omega
  · have hstop : ∀ s, (main K node p l b).1 ≠ Outcome.looping s :=
      fun s hs => hloop ⟨s, hs⟩
    rw [program_stopped K node p l b ins hstop,
      main_txPayloads_stopped K node p l b hstop] at h
    simp at h

/-- The responder whose radio calls all succeed, after `m` full cycles. -/
theorem responder_okCycles (m : Nat) :
    sessionAfter radiolib false 22 120 (specBoot radiolib 0 0)
        (List.replicate (2 * m) (okPass radiolib)) ≠ none ∧
    (sessionAfter radiolib false 22 120 (specBoot radiolib 0 0)
        (List.replicate (2 * m) (okPass radiolib))).map Session.count
      = some (wrapInt32 m) ∧
    (sessionAfter radiolib false 22 120 (specBoot radiolib 0 0)
        (List.replicate (2 * m) (okPass radiolib) ++ [okPass radiolib])).map Session.count
      = some (wrapInt32 (m + 1)) ∧
    (txPayloads (program radiolib false 22 120 (specBoot radiolib 0 0)
        (List.replicate (2 * m) (okPass radiolib)))).length = m := by
  have hs : (main radiolib false 22 120 (specBoot radiolib 0 0)).1
      = Outcome.looping (initial radiolib) := by decide
  have hcyc := runLoop_okCycles radiolib m (initial radiolib) rfl
  have hcnt := runLoop_count radiolib (List.replicate (2 * m) (okPass radiolib))
    (initial radiolib) (by decide) (by decide)
  have hcnt' := runLoop_count radiolib
    (List.replicate (2 * m) (okPass radiolib) ++ [okPass radiolib])
    (initial radiolib) (by decide) (by decide)
  have hlast := step_ok_rx radiolib
    (runLoop radiolib (List.replicate (2 * m) (okPass radiolib)) (initial radiolib)).1 hcyc.1
  have hrx' : rxCompletions (runLoop radiolib
      (List.replicate (2 * m) (okPass radiolib) ++ [okPass radiolib]) (initial radiolib)).2
      = m + 1 := by
    rw [runLoop_append]
    simp only [rxCompletions_append, hcyc.2, runLoop_cons, runLoop, List.append_nil, hlast.2]
  have hzero : (initial radiolib).count = 0 := rfl
  refine ⟨?_, ?_, ?_, ?_⟩
  · rw [sessionAfter_looping _ _ _ _ _ _ _ hs]
    simp
  · rw [sessionAfter_looping _ _ _ _ _ _ _ hs, Option.map_some', hcnt, hcyc.2, hzero]
    simp
  · rw [sessionAfter_looping _ _ _ _ _ _ _ hs, Option.map_some', hcnt', hrx', hzero]
    simp
  · rw [program_looping _ _ _ _ _ _ _ hs, txPayloads_append,
      main_txPayloads _ _ _ _ _ _ hs, List.length_append,
      runLoop_txPayloads_length, hcyc.2]
    simp

/-- C8, as amended: every payload handed to `startTransmit` is the text "Hello World! "
followed by the decimal rendering of the current `count`. On the initiator the first radio
command is `startTransmit("Hello World! 0")` and the first processed completion leads to
`startReceive`; on the responder the first command is `startReceive` and the first processed
completion leads to `startTransmit("Hello World! 1")`. The n-th message sent (n >= 1) carries
n-1 on the initiator and n on the responder wrapped to a 32-bit `int`, which is n-1 for
n <= 2^31 and n for n < 2^31. -/
theorem payload_numbering (K : Consts) (p l : Int) (b : BootReplies) (ins : List PassInput) :
    (∀ (r : RadioReplies) (s : Session),
      txPayloads (loopPass K r s).2 = [] ∨
      txPayloads (loopPass K r s).2 = [helloText (loopPass K r s).1.count]) ∧
    (∀ s, (main K true p l b).1 = Outcome.looping s →
      radioCommands (main K true p l b).2 = [Act.startTransmit "Hello World! 0"] ∧
      ∀ r, radioCommands (loopPass K r (setFlag s)).2 = [Act.startReceive]) ∧
    (∀ s, (main K false p l b).1 = Outcome.looping s →
      radioCommands (main K false p l b).2 = [Act.startReceive] ∧
      ∀ r, radioCommands (loopPass K r (setFlag s)).2
        = [Act.readData 25, Act.startTransmit "Hello World! 1"]) ∧
    (∀ (n : Nat) (msg : String), 1 ≤ n →
      (txPayloads (program K true p l b ins))[n - 1]? = some msg →
        msg = helloText (wrapInt32 ((n : Int) - 1)) ∧
        (n ≤ 2147483648 → msg = "Hello World! " ++ Nat.repr (n - 1))) ∧
    (∀ (n : Nat) (msg : String), 1 ≤ n →
      (txPayloads (program K false p l b ins))[n - 1]? = some msg →
        msg = helloText (wrapInt32 (n : Int)) ∧
        (n ≤ 2147483647 → msg = "Hello World! " ++ Nat.repr n)) := by
  refine ⟨?_, ?_, ?_, ?_, ?_⟩
  · intro r s
    cases hd : s.operationDone with
    | false =>
      left
      rw [loopPass_idle K r s hd]
      rfl
    | true =>
      cases ht : s.transmitFlag with
      | true =>
        left
        exact txPayloads_tx K r s hd ht
      | false =>
        right
        rw [txPayloads_rx K r s hd ht, loopPass_rx K r s hd ht]
  · intro s hs
    obtain ⟨_, _, hf⟩ := main_count K true p l b s hs
    have hcmd := main_radioCommands K true p l b
    rw [main_outcome] at hs
    refine ⟨?_, fun r => radioCommands_tx K r (setFlag s) rfl hf⟩
    rw [hcmd]
    simp only [if_true] at hs ⊢
    split_ifs at hs ⊢
    rfl
  · intro s hs
    obtain ⟨hc, _, hf⟩ := main_count K false p l b s hs
    have hcmd := main_radioCommands K false p l b
    rw [main_outcome] at hs
    refine ⟨?_, fun r => ?_⟩
    · rw [hcmd]
      simp only [Bool.false_eq_true, if_false] at hs ⊢
      split_ifs at hs ⊢
      rfl
    · have hc' : (setFlag s).count = 0 := hc
      rw [radioCommands_rx K r (setFlag s) rfl hf, hc']
      decide
  · intro n msg hn h
    have hm := program_txPayloads_get K true p l b ins (n - 1) msg h
    simp only [if_true] at hm
    have hcast : ((n - 1 : Nat) : Int) = (n : Int) - 1 := by omega
    refine ⟨by rw [hm, hcast], fun hle => ?_⟩
    rw [hm, wrapInt32_of_range _ (by omega) (by omega)]
    exact helloText_ofNat (n - 1)
  · intro n msg hn h
    have hm := program_txPayloads_get K false p l b ins (n - 1) msg h
    simp only [Bool.false_eq_true, if_false] at hm
    have hcast : ((n - 1 : Nat) : Int) + 1 = (n : Int) := by omega
    rw [hcast] at hm
    refine ⟨hm, fun hle => ?_⟩
    rw [hm, wrapInt32_of_range _ (by omega) (by omega)]
    exact helloText_ofNat n

theorem payload_numbering_witness :
    "Hello World! 0" = helloText (wrapInt32 ((1 : Nat) - 1)) ∧
    "Hello World! 1" = helloText (wrapInt32 ((2 : Nat) - 1)) :=
  ⟨((payload_numbering radiolib 22 120 (specBoot radiolib 0 0)
      [okPass radiolib, okPass radiolib]).2.2.2.1 1 "Hello World! 0"
      (by decide) (by decide)).1,
   ((payload_numbering radiolib 22 120 (specBoot radiolib 0 0)
      [okPass radiolib, okPass radiolib]).2.2.2.1 2 "Hello World! 1"
      (by decide) (by decide)).1⟩

/-- C8 as stated fails at n = 2^31 on the responder: after 2^31 cycles whose radio calls all
succeed, the 2^31-th message sent carries -2147483648, not 2147483648. -/
theorem payload_numbering_counterexample :
    (txPayloads (program radiolib false 22 120 (specBoot radiolib 0 0)
        (List.replicate (2 * 2147483648) (okPass radiolib))))[2147483648 - 1]?
      = some "Hello World! -2147483648" ∧
    "Hello World! -2147483648" ≠ "Hello World! " ++ Nat.repr 2147483648 := by
  have hlen := (responder_okCycles 2147483648).2.2.2
  have hlt : 2147483648 - 1 < (txPayloads (program radiolib false 22 120
      (specBoot radiolib 0 0) (List.replicate (2 * 2147483648) (okPass radiolib)))).length := by
    rw [hlen]
    decide
  have hget := List.getElem?_eq_getElem hlt
  have hm := program_txPayloads_get radiolib false 22 120 (specBoot radiolib 0 0) _ _ _ hget
  have hval : helloText (wrapInt32 (if false = true then ((2147483648 - 1 : Nat) : Int)
      else ((2147483648 - 1 : Nat) : Int) + 1)) = "Hello World! -2147483648" := by decide
  refine ⟨?_, by decide⟩
  rw [hget, hm, hval]

/-- C2, as amended: processing a receive-completion sets `count` to `count + 1` wrapped to a
32-bit `int`, which is an increase by exactly 1 below 2147483647 and the step to -2147483648
at 2147483647; processing a transmit-completion leaves `count` unchanged; hence after any
run `count` is its start value plus the number of processed receive-completions, wrapped,
and each of these sent exactly one message. -/
theorem count_increment_wraps (K : Consts) (s0 : Session) (ins : List PassInput)
    (hlo : -2147483648 ≤ s0.count) (hhi : s0.count ≤ 2147483647) :
    (∀ (r : RadioReplies) (s : Session), s.operationDone = true → s.transmitFlag = false →
      (loopPass K r s).1.count = wrapInt32 (s.count + 1) ∧
      (-2147483648 ≤ s.count → s.count < 2147483647 →
        (loopPass K r s).1.count = s.count + 1) ∧
      (s.count = 2147483647 → (loopPass K r s).1.count = -2147483648)) ∧
    (∀ (r : RadioReplies) (s : Session), s.operationDone = true → s.transmitFlag = true →
      (loopPass K r s).1.count = s.count) ∧
    (runLoop K ins s0).1.count = wrapInt32 (s0.count + rxCompletions (runLoop K ins s0).2) ∧
    (txPayloads (runLoop K ins s0).2).length = rxCompletions (runLoop K ins s0).2 := by
  refine ⟨?_, ?_, runLoop_count K ins s0 hlo hhi, runLoop_txPayloads_length K ins s0⟩
  · intro r s hd ht
    have hc : (loopPass K r s).1.count = wrapInt32 (s.count + 1) := by
      rw [loopPass_rx K r s hd ht]
    refine ⟨hc, ?_, ?_⟩
    · intro h1 h2
      rw [hc]
      exact wrapInt32_of_range _ (by omega) (by omega)
    · intro h
      rw [hc, h]
      decide
  · intro r s hd ht
    rw [loopPass_tx K r s hd ht]

theorem count_increment_wraps_witness :
    (runLoop radiolib [okPass radiolib, okPass radiolib] ⟨0, false, false, 41⟩).1.count
      = wrapInt32 (41 + rxCompletions
          (runLoop radiolib [okPass radiolib, okPass radiolib] ⟨0, false, false, 41⟩).2) :=
  (count_increment_wraps radiolib ⟨0, false, false, 41⟩ [okPass radiolib, okPass radiolib]
    (by decide) (by decide)).2.2.1

/-- C2 as stated fails when `count` is 2147483647: the responder whose radio calls all
succeed has that value after 2147483647 cycles, and processing the next receive-completion
makes it -2147483648, not 2147483648. -/
theorem count_increment_counterexample :
    (sessionAfter radiolib false 22 120 (specBoot radiolib 0 0)
        (List.replicate (2 * 2147483647) (okPass radiolib))).map Session.count
      = some 2147483647 ∧
    (sessionAfter radiolib false 22 120 (specBoot radiolib 0 0)
        (List.replicate (2 * 2147483647) (okPass radiolib) ++ [okPass radiolib])).map
          Session.count
      = some (-2147483648) ∧
    (loopPass radiolib (okReplies radiolib) ⟨0, false, true, 2147483647⟩).1.count
      = -2147483648 := by
  have h1 : wrapInt32 ((2147483647 : Nat) : Int) = 2147483647 := by decide
  have h2 : wrapInt32 (((2147483647 : Nat) : Int) + 1) = -2147483648 := by decide
  refine ⟨?_, ?_, by decide⟩
  · rw [(responder_okCycles 2147483647).2.1, h1]
  · rw [(responder_okCycles 2147483647).2.2.1, h2]

/-- C9, as amended: `count` starts at 0 and, as long as fewer than 2^31 receive-completions
have been processed, it equals the number of processed receive-completions; so it is
non-negative and at least its value at any earlier point of the run. -/
theorem count_monotone_below_wrap (K : Consts) (node : Bool) (p l : Int) (b : BootReplies)
    (s0 : Session) (ins₁ ins₂ : List PassInput)
    (hboot : (main K node p l b).1 = Outcome.looping s0)
    (hlt : rxCompletions (runLoop K (ins₁ ++ ins₂) s0).2 < 2147483648) :
    s0.count = 0 ∧
    (runLoop K ins₁ s0).1.count = rxCompletions (runLoop K ins₁ s0).2 ∧
    (runLoop K (ins₁ ++ ins₂) s0).1.count = rxCompletions (runLoop K (ins₁ ++ ins₂) s0).2 ∧
    0 ≤ (runLoop K ins₁ s0).1.count ∧
    0 ≤ (runLoop K (ins₁ ++ ins₂) s0).1.count ∧
    (runLoop K ins₁ s0).1.count ≤ (runLoop K (ins₁ ++ ins₂) s0).1.count := by
  have hc := (main_count K node p l b s0 hboot).1
  have h1 := runLoop_count K ins₁ s0 (by omega) (by omega)
  have h2 := runLoop_count K (ins₁ ++ ins₂) s0 (by omega) (by omega)
  have hsplit : rxCompletions (runLoop K (ins₁ ++ ins₂) s0).2
      = rxCompletions (runLoop K ins₁ s0).2
        + rxCompletions (runLoop K ins₂ (runLoop K ins₁ s0).1).2 := by
    rw [runLoop_append, rxCompletions_append]
  rw [hc, Int.zero_add] at h1 h2
  rw [wrapInt32_of_range _ (by omega) (by omega)] at h1 h2
  refine ⟨hc, h1, h2, ?_, ?_, ?_⟩ <;> omega

theorem count_monotone_below_wrap_witness :
    (runLoop radiolib [okPass radiolib] (initial radiolib)).1.count
      ≤ (runLoop radiolib ([okPass radiolib] ++ [okPass radiolib, okPass radiolib])
          (initial radiolib)).1.count :=
  (count_monotone_below_wrap radiolib false 22 120 (specBoot radiolib 0 0) (initial radiolib)
    [okPass radiolib] [okPass radiolib, okPass radiolib] (by decide) (by decide)).2.2.2.2.2

/-- C9 as stated fails after 2^31 processed receive-completions: the responder whose radio
calls all succeed has `count` 2147483647 after 2147483647 cycles and -2147483648, a negative
and smaller value, after one more cycle. -/
theorem count_monotone_counterexample :
    (sessionAfter radiolib false 22 120 (specBoot radiolib 0 0)
        (List.replicate (2 * 2147483648) (okPass radiolib))).map Session.count
      = some (-2147483648) ∧
    (-2147483648 : Int) < 0 := by
  have h : wrapInt32 ((2147483648 : Nat) : Int) = -2147483648 := by decide
  refine ⟨?_, by decide⟩
  rw [(responder_okCycles 2147483648).2.1, h]

end PingPong
